import Mathlib

/-!
Verification of the authentication token lifecycle of the fastapi-starter
repository, as a shallow embedding in Lean 4.

Sources embedded:
* api_app_new/core/security.py  (JWTHandler: create_access_token,
  create_refresh_token, decode_token, refresh_token; verify_password,
  get_password_hash)  — textually identical to apiapp/api/core/security.py
* apiapp/api/core/security.py   (get_current_user)
* apiapp/modules/auth/use_case.py  (AuthUseCase.login_for_access_token,
  AuthUseCase.authentication)
* api_app/api/routers/v1/auth.py   (authentication route)
* api_app/core/config.py           (Settings)

Modelling conventions: timestamps and timedeltas are in whole seconds
(Nat); a Python timedelta of m minutes is m * 60.  The JOSE HMAC is
idealized: a signature is the pair of the signing key and the signed
payload, so verification succeeds exactly for the same key and payload.
Python dict payloads only ever hold the claims sub, token_type, iat, exp
in the embedded code, so payloads are a fixed record of four optional
fields.  Quote characters inside Python f-string error details are
elided.
-/

namespace Starter

/-- JWT payload: the claims the embedded code reads or writes.  A field
of none is an absent dict key; dict.get returns None for it. -/
structure Payload where
  sub : Option String
  token_type : Option String
  iat : Option Nat
  exp : Option Nat
  deriving Repr, DecidableEq

/-- Idealized HMAC-SHA256 signature: determined by the signing key and
the signed payload, collision-free. -/
structure Sig where
  key : String
  body : Payload
  deriving Repr, DecidableEq

/-- A compact JWS token: payload plus signature (the base64url transport
encoding is elided, it is a bijection). -/
structure Token where
  payload : Payload
  sig : Sig
  deriving Repr, DecidableEq

/-- jose jwt.encode: serialize the claims and sign with the secret. -/
def jwtEncode (secret : String) (payload : Payload) : Token :=
  ⟨payload, ⟨secret, payload⟩⟩

/-- Errors raised by jose jwt.decode in the embedded code paths. -/
inductive JoseError
  | expiredSignature
  | jwtError
  deriving Repr, DecidableEq

/-- jose jwt.decode with a fixed algorithm list: verify the signature
first, then validate exp (expired exactly when exp < now, leeway 0; a
missing exp claim is not validated by default). -/
def jwtDecode (secret : String) (tok : Token) (now : Nat) : Except JoseError Payload :=
  if tok.sig = ⟨secret, tok.payload⟩ then
    match tok.payload.exp with
    | some e => if e < now then .error .expiredSignature else .ok tok.payload
    | none => .ok tok.payload
  else
    .error .jwtError

/-- fastapi HTTPException, as status code, detail string and headers. -/
structure HTTPError where
  status_code : Nat
  detail : String
  headers : List (String × String)
  deriving Repr, DecidableEq

/-- api_app/core/config.py Settings: the auth-relevant fields with their
coded defaults. -/
structure Settings where
  SECRET_KEY : String
  ACCESS_TOKEN_EXPIRE_MINUTES : Nat
  REFRESH_TOKEN_EXPIRE_MINUTES : Nat
  deriving Repr, DecidableEq

/-- Lookup of a process environment variable. -/
def envLookup (env : List (String × String)) (key : String) : Option String :=
  (env.find? (fun kv => kv.fst == key)).map (fun kv => kv.snd)

/-- api_app/core/config.py: pydantic BaseSettings loading.  Every field
has a coded default, so loading succeeds on any environment; in
particular SECRET_KEY falls back to the literal default secret_key.
(The TTL fields take a numeric environment override when parseable.) -/
def Settings.load (env : List (String × String)) : Settings :=
  { SECRET_KEY := (envLookup env "SECRET_KEY").getD "secret_key"
    ACCESS_TOKEN_EXPIRE_MINUTES :=
      ((envLookup env "ACCESS_TOKEN_EXPIRE_MINUTES").bind String.toNat?).getD 10
    REFRESH_TOKEN_EXPIRE_MINUTES :=
      ((envLookup env "REFRESH_TOKEN_EXPIRE_MINUTES").bind String.toNat?).getD (30 * 24 * 60) }

/-- api_app_new/core/security.py JWTHandler. -/
structure JWTHandler where
  secret_key : String
  algorithm : String
  deriving Repr, DecidableEq

/-- Python truthiness of an optional timedelta: None and timedelta(0)
are falsy. -/
def tdTruthy : Option Nat → Bool
  | none => false
  | some d => d != 0

/-- JWTHandler.create_access_token: copy the data dict, set exp to
now + expires_delta (default now + ACCESS_TOKEN_EXPIRE_MINUTES minutes
when expires_delta is falsy), sign with the handler secret. -/
def JWTHandler.create_access_token (h : JWTHandler) (s : Settings) (data : Payload)
    (expires_delta : Option Nat) (now : Nat) : Token :=
  let expire :=
    if tdTruthy expires_delta then now + expires_delta.getD 0
    else now + s.ACCESS_TOKEN_EXPIRE_MINUTES * 60
  jwtEncode h.secret_key ⟨data.sub, data.token_type, data.iat, some expire⟩

/-- JWTHandler.create_refresh_token: identical except the falsy-delta
default uses REFRESH_TOKEN_EXPIRE_MINUTES. -/
def JWTHandler.create_refresh_token (h : JWTHandler) (s : Settings) (data : Payload)
    (expires_delta : Option Nat) (now : Nat) : Token :=
  let expire :=
    if tdTruthy expires_delta then now + expires_delta.getD 0
    else now + s.REFRESH_TOKEN_EXPIRE_MINUTES * 60
  jwtEncode h.secret_key ⟨data.sub, data.token_type, data.iat, some expire⟩

/-- JWTHandler.decode_token.  Faithful to the Python exception flow: the
wrong-token-type HTTPException(401) is raised inside the try block of
decode_token itself, so it is caught by the blanket except Exception
clause of the same try statement and re-raised as HTTPException(500,
Decode Error Token: ...), where str of the caught exception is
status: detail. -/
def JWTHandler.decode_token (h : JWTHandler) (tok : Token) (token_type : Option String)
    (now : Nat) : Except HTTPError Payload :=
  match jwtDecode h.secret_key tok now with
  | .error .expiredSignature =>
      .error ⟨400, "Token Expired", [("WWW-Authenticate", "Bearer")]⟩
  | .error .jwtError =>
      .error ⟨401, "Token Invalid", [("WWW-Authenticate", "Bearer")]⟩
  | .ok payload =>
      match token_type with
      | some t =>
          if t != "" && payload.token_type != some t then
            .error ⟨500,
              "Decode Error Token: 401: Token type incorrect: expected " ++ t ++
                " but got " ++ payload.token_type.getD "None", []⟩
          else
            .ok payload
      | none => .ok payload

/-- JWTHandler.refresh_token: decode as refresh, require a truthy sub,
re-issue a fresh access token. -/
def JWTHandler.refresh_token (h : JWTHandler) (s : Settings) (tok : Token)
    (now : Nat) : Except HTTPError Token :=
  match h.decode_token tok (some "refresh") now with
  | .error e => .error e
  | .ok payload =>
      match payload.sub with
      | none => .error ⟨400, "No sub in Refresh Token", []⟩
      | some user_id =>
          if user_id = "" then .error ⟨400, "No sub in Refresh Token", []⟩
          else
            .ok (h.create_access_token s ⟨some user_id, some "access", none, none⟩
                  (some (s.ACCESS_TOKEN_EXPIRE_MINUTES * 60)) now)

/-- The module-level handler: JWTHandler(settings.SECRET_KEY, ALGORITHM)
with ALGORITHM = HS256.  Constructed unconditionally at import time. -/
def jwt_handler (s : Settings) : JWTHandler :=
  ⟨s.SECRET_KEY, "HS256"⟩

/-! ## Password hashing

Two distinct hashers appear in the sources: the bcrypt-based
verify_password of the security modules, and the werkzeug-based
User.verify_password of the apiapp user model. -/

/-- bcrypt error surfaced in Python as ValueError (Invalid salt). -/
inductive BcryptError
  | invalidSalt
  deriving Repr, DecidableEq

/-- Whether a stored string parses as a self-describing bcrypt hash: a
modular-crypt prefix of version 2a or 2b followed by cost, salt and
digest, 60 characters in all.  bcrypt rejects anything else. -/
def isBcryptFormat (stored : String) : Bool :=
  (stored.data.take 4 == "$2b$".data || stored.data.take 4 == "$2a$".data)
    && stored.data.length == 60

/-- Modelled from the bcrypt library: the digest comparison of checkpw,
idealized as collision-free — the stored digest (the part after the
29-character version-cost-salt prefix) matches exactly when it was
derived from this password. -/
def bcryptDigestOk (password stored : String) : Bool :=
  stored.data.drop 29 == password.data

/-- Modelled from the bcrypt library (pyca/bcrypt): checkpw re-hashes
the password under the salt embedded in the stored hash and compares.
A stored value that does not parse as a bcrypt hash makes hashpw raise
ValueError (Invalid salt) instead of returning a boolean. -/
def bcrypt_checkpw (password stored : String) : Except BcryptError Bool :=
  if isBcryptFormat stored then .ok (bcryptDigestOk password stored)
  else .error .invalidSalt

/-- api_app_new/core/security.py (and apiapp/api/core/security.py)
verify_password: returns bcrypt.checkpw directly; any ValueError from a
malformed stored hash propagates to the caller. -/
def verify_password (plain_password hashed_password : String) : Except BcryptError Bool :=
  bcrypt_checkpw plain_password hashed_password

/-- Modelled from the werkzeug library: check_password_hash of the
apiapp User model, idealized as a collision-free salted hash — the
check succeeds exactly when the stored hash was generated from this
password. -/
def check_password_hash (pwhash password : String) : Bool :=
  pwhash == "werkzeug$" ++ password

/-! ## User store and authentication flows -/

/-- apiapp/modules/user/model.py User document (the fields the auth
flows read).  The id is the string form of the document id. -/
structure User where
  id : String
  username : String
  email : String
  hashed_password : String
  is_active : Bool
  last_login_date : Option Nat
  deriving Repr, DecidableEq

/-- repository.find_one with filters username and is_active true: the
first stored user matching both. -/
def find_one_active (store : List User) (username : String) : Option User :=
  store.find? (fun u => u.username == username && u.is_active)

/-- GetAccessTokenResponse of apiapp/modules/auth/schemas.py. -/
structure GetAccessTokenResponse where
  access_token : Token
  token_type : String
  deriving Repr, DecidableEq

/-- Token response schema (apiapp/modules/auth/schemas.py Token and
api_app/schemas tokens): the full pair returned by authentication. -/
structure TokenOut where
  access_token : Token
  refresh_token : Token
  token_type : String
  expires_in : Nat
  expires_at : Nat
  scope : String
  issued_at : Option Nat
  deriving Repr, DecidableEq

/-- Failure of the awaited repository write. -/
inductive DBError
  | writeFailed
  deriving Repr, DecidableEq

/-- What an authentication coroutine can raise: an HTTPException or a
propagated store exception. -/
inductive AuthExc
  | http (e : HTTPError)
  | exc (e : DBError)
  deriving Repr, DecidableEq

/-- AuthUseCase.login_for_access_token (apiapp/modules/auth/use_case.py):
find an active user by username and immediately issue an access token
with data sub only.  The submitted password is never read. -/
def AuthUseCase.login_for_access_token (h : JWTHandler) (s : Settings)
    (store : List User) (username password : String) (now : Nat) :
    Except HTTPError GetAccessTokenResponse :=
  match find_one_active store username with
  | none =>
      .error ⟨401, "Incorrect username or password", [("WWW-Authenticate", "Bearer")]⟩
  | some user =>
      .ok ⟨h.create_access_token s ⟨some user.id, none, none, none⟩
            (some (s.ACCESS_TOKEN_EXPIRE_MINUTES * 60)) now,
          "bearer"⟩

/-- AuthUseCase.authentication (apiapp/modules/auth/use_case.py): find
an active user, verify the password with the werkzeug hasher, await the
last_login_date repository write (updateResult is its outcome — an
exception propagates out of the coroutine), then build the token pair:
access token with the access TTL, refresh token with the refresh TTL.
issued_at reads last_login_date from the in-memory user object, which
the repository update does not refresh. -/
def AuthUseCase.authentication (h : JWTHandler) (s : Settings) (store : List User)
    (username password : String) (updateResult : Except DBError Unit) (now : Nat) :
    Except AuthExc TokenOut :=
  match find_one_active store username with
  | none => .error (.http ⟨401, "Incorrect username or password", []⟩)
  | some user =>
      if !check_password_hash user.hashed_password password then
        .error (.http ⟨401, "Incorrect username or password", []⟩)
      else
        match updateResult with
        | .error e => .error (.exc e)
        | .ok _ =>
            let access_token_expires := s.ACCESS_TOKEN_EXPIRE_MINUTES * 60
            let refresh_token_expires := s.REFRESH_TOKEN_EXPIRE_MINUTES * 60
            .ok { access_token :=
                    h.create_access_token s ⟨some user.id, some "access", none, none⟩
                      (some access_token_expires) now
                  refresh_token :=
                    h.create_refresh_token s ⟨some user.id, some "refresh", none, none⟩
                      (some refresh_token_expires) now
                  token_type := "Bearer"
                  expires_in := s.ACCESS_TOKEN_EXPIRE_MINUTES * 60
                  expires_at := now + access_token_expires
                  scope := ""
                  issued_at := user.last_login_date }

/-- Modelled from the spec: api_app/models/user_model.py is absent from
the sources, so User.verify_password of the api_app variant follows the
PasswordHasher contract of the spec — true exactly when the password
matches the stored credential hash (idealized collision-free hash). -/
def ApiAppUser.verify_password (hashed_password password : String) : Bool :=
  hashed_password == "hash$" ++ password

/-- authentication route (api_app/api/routers/v1/auth.py, POST /login):
find the user by username then by email, verify the password, set
last_login_date to now and save, then build the token pair.  Note the
source passes access_token_expires as the expires_delta of
create_refresh_token. -/
def ApiAppRouter.authentication (h : JWTHandler) (s : Settings) (store : List User)
    (username password : String) (now : Nat) : Except HTTPError TokenOut :=
  let user? :=
    match store.find? (fun u => u.username == username) with
    | some u => some u
    | none => store.find? (fun u => u.email == username)
  match user? with
  | none => .error ⟨401, "Incorrect username or password", []⟩
  | some user =>
      if !ApiAppUser.verify_password user.hashed_password password then
        .error ⟨401, "Incorrect username or password", []⟩
      else
        let access_token_expires := s.ACCESS_TOKEN_EXPIRE_MINUTES * 60
        .ok { access_token :=
                h.create_access_token s ⟨some user.id, some "access", none, none⟩
                  (some access_token_expires) now
              refresh_token :=
                h.create_refresh_token s ⟨some user.id, some "refresh", none, none⟩
                  (some access_token_expires) now
              token_type := "Bearer"
              expires_in := s.ACCESS_TOKEN_EXPIRE_MINUTES * 60
              expires_at := now + access_token_expires
              scope := ""
              issued_at := some now }

/-- get_current_user (apiapp/api/core/security.py): decode the bearer
token with jose directly — no token_type argument, hence no kind check —
then look the user up by the sub claim. -/
def get_current_user (secret : String) (store : List User) (tok : Token)
    (now : Nat) : Except HTTPError User :=
  match jwtDecode secret tok now with
  | .error _ => .error ⟨403, "Could not validate credentials", []⟩
  | .ok payload =>
      match payload.sub with
      | none => .error ⟨404, "User not found", []⟩
      | some i =>
          match store.find? (fun u => u.id == i) with
          | none => .error ⟨404, "User not found", []⟩
          | some user => .ok user

/-! ## ClaimSet view of payloads (spec data model, section 3) -/

/-- Token kind tag. -/
inductive TokenKind
  | access
  | refresh
  deriving Repr, DecidableEq

/-- The token_type claim string of a kind. -/
def TokenKind.str : TokenKind → String
  | .access => "access"
  | .refresh => "refresh"

/-- ClaimSet of the spec data model. -/
structure ClaimSet where
  subject : String
  tokenKind : TokenKind
  issuedAt : Nat
  expiresAt : Nat
  deriving Repr, DecidableEq

/-- Parse a token_type claim back into a kind. -/
def parseKind (s : String) : Option TokenKind :=
  if s = "access" then some .access
  else if s = "refresh" then some .refresh
  else none

/-- Read a full ClaimSet back out of a decoded payload; none when any
required claim is absent or the kind tag is unknown. -/
def payloadToClaimSet (p : Payload) : Option ClaimSet :=
  match p.sub, p.token_type, p.iat, p.exp with
  | some sub, some tt, some iat, some exp =>
      (parseKind tt).map (fun k => ⟨sub, k, iat, exp⟩)
  | _, _, _, _ => none

/-- The claims dict a ClaimSet supplies to the encoder (exp is written
by create_access_token itself). -/
def claimSetData (c : ClaimSet) : Payload :=
  ⟨some c.subject, some c.tokenKind.str, some c.issuedAt, none⟩

/-- Encoding of a ClaimSet through the source encoder: call
create_access_token at time issuedAt with the remaining lifetime as the
expires_delta, so the written exp claim is exactly expiresAt. -/
def encodeClaimSet (h : JWTHandler) (s : Settings) (c : ClaimSet) : Token :=
  h.create_access_token s (claimSetData c) (some (c.expiresAt - c.issuedAt)) c.issuedAt

/-- issueAccess as the source performs it (AuthUseCase.authentication
and JWTHandler.refresh_token): create_access_token with data sub and
token_type access and the configured access TTL. -/
def issueAccess (h : JWTHandler) (s : Settings) (subject : String) (now : Nat) : Token :=
  h.create_access_token s ⟨some subject, some "access", none, none⟩
    (some (s.ACCESS_TOKEN_EXPIRE_MINUTES * 60)) now

/-! ## Concrete fixtures -/

/-- A handler with the scenario secret of spec section 8. -/
def hC : JWTHandler := ⟨"s3cr3t", "HS256"⟩

/-- Settings with the coded defaults of api_app/core/config.py:
access TTL 10 minutes, refresh TTL 30 days (43200 minutes). -/
def sC : Settings := ⟨"secret_key", 10, 43200⟩

/-- An active user whose werkzeug credential hash matches password pw. -/
def aliceWz : User := ⟨"u1", "alice", "alice@example.com", "werkzeug$pw", true, none⟩

/-- The same user with the spec-modelled api_app credential hash. -/
def aliceApi : User := ⟨"u1", "alice", "alice@example.com", "hash$pw", true, none⟩

/-- An existing active user whose stored hash matches password right. -/
def realWz : User := ⟨"u2", "real-user", "real@example.com", "werkzeug$right", true, none⟩

/-- The access token of spec section 8: issueAccess for user-42 at time
0 under access TTL 10 minutes. -/
def accessTok42 : Token := issueAccess hC sC "user-42" 0

/-! ## Helper lemmas -/

lemma parseKind_str (k : TokenKind) : parseKind k.str = some k := by
  cases k <;> rfl

lemma encodeClaimSet_eq (h : JWTHandler) (s : Settings) (c : ClaimSet)
    (hlt : c.issuedAt < c.expiresAt) :
    encodeClaimSet h s c =
      jwtEncode h.secret_key
        ⟨some c.subject, some c.tokenKind.str, some c.issuedAt, some c.expiresAt⟩ := by
  have h0 : c.expiresAt - c.issuedAt ≠ 0 := Nat.sub_ne_zero_of_lt hlt
  have h1 : c.issuedAt + (c.expiresAt - c.issuedAt) = c.expiresAt :=
    Nat.add_sub_cancel' (Nat.le_of_lt hlt)
  simp [encodeClaimSet, JWTHandler.create_access_token, claimSetData, tdTruthy, h0, h1]

lemma decode_token_ok (h : JWTHandler) (p : Payload) (e now : Nat)
    (hexp : p.exp = some e) (hne : ¬ e < now) :
    h.decode_token (jwtEncode h.secret_key p) none now = .ok p := by
  simp [JWTHandler.decode_token, jwtDecode, jwtEncode, hexp, hne]

lemma decode_token_expired (h : JWTHandler) (p : Payload) (e now : Nat)
    (hexp : p.exp = some e) (hlt : e < now) :
    h.decode_token (jwtEncode h.secret_key p) none now =
      .error ⟨400, "Token Expired", [("WWW-Authenticate", "Bearer")]⟩ := by
  simp [JWTHandler.decode_token, jwtDecode, jwtEncode, hexp, hlt]

lemma issueAccess_eq (h : JWTHandler) (s : Settings) (subject : String) (t0 : Nat)
    (hs : s.ACCESS_TOKEN_EXPIRE_MINUTES = 10) :
    issueAccess h s subject t0 =
      jwtEncode h.secret_key ⟨some subject, some "access", none, some (t0 + 600)⟩ := by
  simp [issueAccess, JWTHandler.create_access_token, tdTruthy, hs]

/-! ## Claims -/

/-- C1: for every user record present and active in the store and every
password string whatsoever, login_for_access_token succeeds and returns
a signed access token for that user, and its result is identical for any
two passwords — password verification is never performed. -/
theorem c1_login_ignores_password (h : JWTHandler) (s : Settings) (store : List User)
    (username p q : String) (now : Nat) (user : User)
    (hfind : find_one_active store username = some user) :
    AuthUseCase.login_for_access_token h s store username p now =
      .ok ⟨h.create_access_token s ⟨some user.id, none, none, none⟩
            (some (s.ACCESS_TOKEN_EXPIRE_MINUTES * 60)) now, "bearer"⟩
    ∧ AuthUseCase.login_for_access_token h s store username p now =
        AuthUseCase.login_for_access_token h s store username q now := by
  constructor
  · simp [AuthUseCase.login_for_access_token, hfind]
  · rfl

/-- Witness for C1: alice is active with a werkzeug hash of pw, yet a
wholly wrong password (and even the empty password) obtains her access
token. -/
theorem c1_login_ignores_password_witness :
    AuthUseCase.login_for_access_token hC sC [aliceWz] "alice" "totally-wrong" 1000 =
      .ok ⟨hC.create_access_token sC ⟨some aliceWz.id, none, none, none⟩
            (some (sC.ACCESS_TOKEN_EXPIRE_MINUTES * 60)) 1000, "bearer"⟩
    ∧ AuthUseCase.login_for_access_token hC sC [aliceWz] "alice" "totally-wrong" 1000 =
        AuthUseCase.login_for_access_token hC sC [aliceWz] "alice" "" 1000 :=
  c1_login_ignores_password hC sC [aliceWz] "alice" "totally-wrong" "" 1000 aliceWz rfl

/-- C2: evaluation of the api_app login route at a successful
authentication (defaults: access TTL 10 minutes, refresh TTL 43200
minutes, login at t = 1000): the issued refresh token expires at
1000 + 600 (issuance plus the ACCESS TTL), not at
1000 + 43200 * 60 = 2593000 as the claim states — the route passes
access_token_expires as the expires_delta of create_refresh_token. -/
theorem c2_refresh_expiry_uses_access_ttl :
    ((ApiAppRouter.authentication hC sC [aliceApi] "alice" "pw" 1000).map
        (fun out => out.refresh_token.payload.exp)) = .ok (some 1600)
    ∧ 1000 + sC.REFRESH_TOKEN_EXPIRE_MINUTES * 60 = 2593000
    ∧ (1600 : Nat) ≠ 2593000 :=
  ⟨rfl, rfl, by decide⟩

/-- C3: evaluation of decode_token at the failing input — a well-formed,
correctly signed, unexpired ACCESS token presented with
expectedKind = refresh.  The token is rejected (never yields the claims,
and the refresh operation never yields a new access token), but the
error is HTTP 500 Decode Error Token wrapping the intended 401
Token type incorrect: the wrong-kind HTTPException is raised inside the
same try block and swallowed by the blanket except Exception clause. -/
theorem c3_wrong_kind_wrapped_as_500 :
    hC.decode_token accessTok42 (some "refresh") 10 =
      .error ⟨500,
        "Decode Error Token: 401: Token type incorrect: expected refresh but got access",
        []⟩
    ∧ hC.refresh_token sC accessTok42 10 =
      .error ⟨500,
        "Decode Error Token: 401: Token type incorrect: expected refresh but got access",
        []⟩ :=
  ⟨rfl, rfl⟩

/-- C4 counterexample: on the malformed stored hash notahash, the claim
predicts verify_password returns false; the code instead propagates the
ValueError (Invalid salt) that bcrypt.checkpw raises. -/
theorem c4_counterexample :
    verify_password "pw" "notahash" = .error .invalidSalt
    ∧ verify_password "pw" "notahash" ≠ .ok false := by
  constructor
  · rfl
  · intro hcontra
    simp [verify_password, bcrypt_checkpw, isBcryptFormat] at hcontra

/-- C4 amended: verify_password returns a boolean only for stored
hashes in valid bcrypt format; on a malformed stored hash it raises
(propagates) the bcrypt ValueError instead of returning false. -/
theorem c4_verify_raises_on_malformed (p stored : String) :
    (isBcryptFormat stored = true →
      verify_password p stored = .ok (bcryptDigestOk p stored))
    ∧ (isBcryptFormat stored = false →
      verify_password p stored = .error .invalidSalt) := by
  constructor <;> intro hfmt <;> simp [verify_password, bcrypt_checkpw, hfmt]

/-- Witness for C4 amended: a 60-character bcrypt-format hash yields a
boolean; notahash yields the propagated error. -/
theorem c4_verify_raises_on_malformed_witness :
    verify_password "pw" "$2b$14$abcdefghijklmnopqrstuvwxyzABCDEFGHIJKLMNOPQRSTUVWXYZa" =
      .ok (bcryptDigestOk "pw"
        "$2b$14$abcdefghijklmnopqrstuvwxyzABCDEFGHIJKLMNOPQRSTUVWXYZa")
    ∧ verify_password "pw" "notahash" = .error .invalidSalt :=
  ⟨(c4_verify_raises_on_malformed "pw"
      "$2b$14$abcdefghijklmnopqrstuvwxyzABCDEFGHIJKLMNOPQRSTUVWXYZa").1 (by decide),
   (c4_verify_raises_on_malformed "pw" "notahash").2 (by decide)⟩

/-- C5 counterexample: alice presents valid credentials, but the awaited
last_login_date repository write fails; authentication then propagates
the write failure and returns no TokenPair, contradicting the claim that
a failed best-effort write does not prevent issuance. -/
theorem c5_counterexample :
    AuthUseCase.authentication hC sC [aliceWz] "alice" "pw" (.error .writeFailed) 1000 =
      .error (.exc .writeFailed)
    ∧ check_password_hash aliceWz.hashed_password "pw" = true :=
  ⟨rfl, rfl⟩

/-- C5 amended: the last-authenticated write sits on the critical path
of AuthUseCase.authentication — with the identifier found and the
password verified, a failing write makes authentication fail with that
error and no TokenPair is returned; only a successful write reaches
token issuance. -/
theorem c5_update_on_critical_path (h : JWTHandler) (s : Settings) (store : List User)
    (username password : String) (now : Nat) (user : User)
    (hfind : find_one_active store username = some user)
    (hpw : check_password_hash user.hashed_password password = true) :
    (∀ e, AuthUseCase.authentication h s store username password (.error e) now =
      .error (.exc e))
    ∧ (AuthUseCase.authentication h s store username password (.ok ()) now).isOk = true := by
  constructor
  · intro e
    simp [AuthUseCase.authentication, hfind, hpw]
  · simp [AuthUseCase.authentication, hfind, hpw, Except.isOk, Except.toBool]

/-- Witness for C5 amended: alice with valid credentials. -/
theorem c5_update_on_critical_path_witness :
    (∀ e, AuthUseCase.authentication hC sC [aliceWz] "alice" "pw" (.error e) 1000 =
      .error (.exc e))
    ∧ (AuthUseCase.authentication hC sC [aliceWz] "alice" "pw" (.ok ()) 1000).isOk = true :=
  c5_update_on_critical_path hC sC [aliceWz] "alice" "pw" 1000 aliceWz rfl rfl

/-- C6: round-trip law — for every ClaimSet with a non-empty subject and
expiresAt after issuedAt, decoding (under the same signing
configuration, at any time strictly before expiresAt) the token that
create_access_token produced from its claims returns a payload carrying
exactly the original claims, and that payload reads back as exactly the
original ClaimSet. -/
theorem c6_encode_decode_roundtrip (h : JWTHandler) (s : Settings) (c : ClaimSet)
    (t : Nat) (hsub : c.subject ≠ "") (hlt : c.issuedAt < c.expiresAt)
    (ht : t < c.expiresAt) :
    h.decode_token (encodeClaimSet h s c) none t =
      .ok ⟨some c.subject, some c.tokenKind.str, some c.issuedAt, some c.expiresAt⟩
    ∧ payloadToClaimSet
        ⟨some c.subject, some c.tokenKind.str, some c.issuedAt, some c.expiresAt⟩ =
      some c := by
  constructor
  · rw [encodeClaimSet_eq h s c hlt]
    exact decode_token_ok h _ c.expiresAt t rfl (Nat.lt_asymm ht)
  · simp [payloadToClaimSet, parseKind_str]

/-- Witness for C6: the ClaimSet for user-42, kind access, issued at
100, expiring at 700, decoded at 400. -/
theorem c6_encode_decode_roundtrip_witness :
    hC.decode_token (encodeClaimSet hC sC ⟨"user-42", .access, 100, 700⟩) none 400 =
      .ok ⟨some "user-42", some "access", some 100, some 700⟩
    ∧ payloadToClaimSet ⟨some "user-42", some "access", some 100, some 700⟩ =
      some ⟨"user-42", .access, 100, 700⟩ :=
  c6_encode_decode_roundtrip hC sC ⟨"user-42", .access, 100, 700⟩ 400
    (by decide) (by decide) (by decide)

/-- C7 counterexample: issueAccess for user-42 at t0 = 0 with access TTL
10 minutes, decoded at 300, yields a payload whose iat claim is absent
(the code never writes issuedAt into the token), so no ClaimSet — in
particular none with issuedAt = t0 — can be read back from it,
contradicting the claim that it decodes to a ClaimSet with issuedAt
equal to t0. -/
theorem c7_counterexample :
    hC.decode_token (issueAccess hC sC "user-42" 0) none 300 =
      .ok ⟨some "user-42", some "access", none, some 600⟩
    ∧ payloadToClaimSet ⟨some "user-42", some "access", none, some 600⟩ = none :=
  ⟨rfl, rfl⟩

/-- C7 amended: issueAccess at t0 under access TTL 10 minutes produces a
token that, at any time strictly before t0 + 10 minutes, decodes to a
payload with that subject, token kind access and expiry t0 + 10 minutes
but no issuedAt claim; decoding the same token at t0 + 11 minutes
yields the Expired rejection. -/
theorem c7_issue_access_expiry (h : JWTHandler) (s : Settings) (subject : String)
    (t0 t : Nat) (hs : s.ACCESS_TOKEN_EXPIRE_MINUTES = 10) (ht : t < t0 + 600) :
    h.decode_token (issueAccess h s subject t0) none t =
      .ok ⟨some subject, some "access", none, some (t0 + 600)⟩
    ∧ h.decode_token (issueAccess h s subject t0) none (t0 + 660) =
      .error ⟨400, "Token Expired", [("WWW-Authenticate", "Bearer")]⟩ := by
  rw [issueAccess_eq h s subject t0 hs]
  constructor
  · exact decode_token_ok h _ (t0 + 600) t rfl (Nat.lt_asymm ht)
  · exact decode_token_expired h _ (t0 + 600) (t0 + 660) rfl
      (Nat.add_lt_add_left (by decide) t0)

/-- Witness for C7 amended: user-42 at t0 = 0, decoded at 300 and at
660. -/
theorem c7_issue_access_expiry_witness :
    hC.decode_token (issueAccess hC sC "user-42" 0) none 300 =
      .ok ⟨some "user-42", some "access", none, some 600⟩
    ∧ hC.decode_token (issueAccess hC sC "user-42" 0) none 660 =
      .error ⟨400, "Token Expired", [("WWW-Authenticate", "Bearer")]⟩ :=
  c7_issue_access_expiry hC sC "user-42" 0 300 rfl (by decide)

/-- C8: an unknown identifier and a known identifier with a wrong
password produce the InvalidCredentials outcome identically — the same
HTTPException with status 401, detail Incorrect username or password and
no headers — so callers cannot tell whether the user exists. -/
theorem c8_uniform_invalid_credentials (h : JWTHandler) (s : Settings)
    (store : List User) (ghost p1 realname p2 : String)
    (r1 r2 : Except DBError Unit) (n1 n2 : Nat) (user : User)
    (hnone : find_one_active store ghost = none)
    (hsome : find_one_active store realname = some user)
    (hpw : check_password_hash user.hashed_password p2 = false) :
    AuthUseCase.authentication h s store ghost p1 r1 n1 =
      .error (.http ⟨401, "Incorrect username or password", []⟩)
    ∧ AuthUseCase.authentication h s store realname p2 r2 n2 =
      .error (.http ⟨401, "Incorrect username or password", []⟩)
    ∧ AuthUseCase.authentication h s store ghost p1 r1 n1 =
        AuthUseCase.authentication h s store realname p2 r2 n2 := by
  have h1 : AuthUseCase.authentication h s store ghost p1 r1 n1 =
      .error (.http ⟨401, "Incorrect username or password", []⟩) := by
    simp [AuthUseCase.authentication, hnone]
  have h2 : AuthUseCase.authentication h s store realname p2 r2 n2 =
      .error (.http ⟨401, "Incorrect username or password", []⟩) := by
    simp [AuthUseCase.authentication, hsome, hpw]
  exact ⟨h1, h2, h1.trans h2.symm⟩

/-- Witness for C8: ghost has no stored credential; real-user exists but
wrong-password does not match the stored hash. -/
theorem c8_uniform_invalid_credentials_witness :
    AuthUseCase.authentication hC sC [realWz] "ghost" "anything" (.ok ()) 1 =
      .error (.http ⟨401, "Incorrect username or password", []⟩)
    ∧ AuthUseCase.authentication hC sC [realWz] "real-user" "wrong-password" (.ok ()) 2 =
      .error (.http ⟨401, "Incorrect username or password", []⟩)
    ∧ AuthUseCase.authentication hC sC [realWz] "ghost" "anything" (.ok ()) 1 =
        AuthUseCase.authentication hC sC [realWz] "real-user" "wrong-password" (.ok ()) 2 :=
  c8_uniform_invalid_credentials hC sC [realWz] "ghost" "anything" "real-user"
    "wrong-password" (.ok ()) (.ok ()) 1 2 realWz rfl rfl rfl

/-- C9 counterexample: loading the settings from an empty environment —
no signing secret configured — succeeds with the coded default
secret_key, the module-level handler is constructed from it, and it
proceeds to sign tokens; initialization never fails, contradicting the
claim that a missing secret prevents process start. -/
theorem c9_counterexample :
    Settings.load [] = ⟨"secret_key", 10, 43200⟩
    ∧ jwt_handler (Settings.load []) = ⟨"secret_key", "HS256"⟩
    ∧ (jwt_handler (Settings.load [])).create_access_token (Settings.load [])
        ⟨some "user-42", some "access", none, none⟩ (some 600) 0 =
      jwtEncode "secret_key" ⟨some "user-42", some "access", none, some 600⟩ :=
  ⟨rfl, rfl, rfl⟩

/-- C9 amended: settings loading is total — when the environment carries
no SECRET_KEY, it silently falls back to the built-in default
secret_key, and the token handler signs with that default; no
configuration error exists. -/
theorem c9_missing_secret_defaults (env : List (String × String))
    (hmiss : envLookup env "SECRET_KEY" = none) :
    (Settings.load env).SECRET_KEY = "secret_key"
    ∧ (jwt_handler (Settings.load env)).secret_key = "secret_key" := by
  constructor <;> simp [Settings.load, jwt_handler, hmiss]

/-- Witness for C9 amended: the empty environment. -/
theorem c9_missing_secret_defaults_witness :
    (Settings.load []).SECRET_KEY = "secret_key"
    ∧ (jwt_handler (Settings.load [])).secret_key = "secret_key" :=
  c9_missing_secret_defaults [] rfl

/-- C10: decode with no expectedKind performs no kind check — every
correctly signed, unexpired payload (whatever its token_type, refresh
included) decodes successfully — and get_current_user, which decodes
without an expectedKind, accepts such a token and returns the user named
by its sub claim. -/
theorem c10_no_kind_check (secret : String) (p : Payload) (now e : Nat)
    (store : List User) (user : User)
    (hexp : p.exp = some e) (hne : ¬ e < now) (hsub : p.sub = some user.id)
    (hfind : store.find? (fun u => u.id == user.id) = some user) :
    (JWTHandler.mk secret "HS256").decode_token (jwtEncode secret p) none now = .ok p
    ∧ get_current_user secret store (jwtEncode secret p) now = .ok user := by
  constructor
  · exact decode_token_ok ⟨secret, "HS256"⟩ p e now hexp hne
  · simp [get_current_user, jwtDecode, jwtEncode, hexp, hne, hsub, hfind]

/-- Witness for C10: a refresh-kind token for alice is accepted by the
kind-less decode and by the bearer-authentication path. -/
theorem c10_no_kind_check_witness :
    (JWTHandler.mk "s3cr3t" "HS256").decode_token
        (jwtEncode "s3cr3t" ⟨some "u1", some "refresh", none, some 600⟩) none 10 =
      .ok ⟨some "u1", some "refresh", none, some 600⟩
    ∧ get_current_user "s3cr3t" [aliceWz]
        (jwtEncode "s3cr3t" ⟨some "u1", some "refresh", none, some 600⟩) 10 =
      .ok aliceWz :=
  c10_no_kind_check "s3cr3t" ⟨some "u1", some "refresh", none, some 600⟩ 10 600
    [aliceWz] aliceWz rfl (by decide) rfl rfl

end Starter
